import Mathlib

/-!
# Verification of the pipelink-sdk request execution pipeline

A shallow embedding of the TypeScript SDK sources:

* `src/errors/sdk-error.ts`  — the error taxonomy (`SdkError`, wrapped in `JsErr`
  together with unclassified thrown values);
* `src/utils/timeout.ts`     — `withTimeout`;
* `src/utils/http.ts`        — `httpRequest`, `get`, `post`;
* `src/config.ts`            — `normalizeConfig`;
* `src/auth/signer.ts`       — `signMessage`;
* `src/auth/verify.ts`       — `verifySignature`;
* `src/wallet/balance.ts`    — `getWalletBalance`;
* `src/pipeline/create.ts`   — `createPipeline`.

JavaScript runtime values are modelled by the type `JsValue` (numbers as
rationals: no claim performs arithmetic on them, only `typeof` tests and
literal comparisons).  Promise behaviour of the injected transport is modelled
by `FetchOutcome`: the transport either resolves with a response, rejects with
a thrown value, or fails to settle before the deadline (`never`), which is how
the `Promise.race` in `withTimeout` observes it.  Each network operation
returns its result together with the number of times it invoked the injected
transport function, so that "the transport was never called" is expressible.
-/

/-- Model of a JavaScript runtime value (the values that can flow through
`JSON.parse`, property accesses and the response validations).  Numbers are
modelled as rationals; NaN does not occur in any modelled code path. -/
inductive JsValue where
  | undefined
  | null
  | bool (b : Bool)
  | num (q : ℚ)
  | str (s : String)
  | arr (elems : List JsValue)
  | obj (props : List (String × JsValue))

/-- JavaScript truthiness of a value (`if (v)`).  Falsy values: `undefined`,
`null`, `false`, `0`, `""`.  (`NaN` is also falsy in JS but has no model.) -/
def JsValue.truthy : JsValue → Bool
  | .undefined => false
  | .null => false
  | .bool b => b
  | .num q => if q = 0 then false else true
  | .str s => if s = "" then false else true
  | .arr _ => true
  | .obj _ => true

/-- JavaScript `typeof` (note `typeof null === "object"`). -/
def JsValue.typeOf : JsValue → String
  | .undefined => "undefined"
  | .null => "object"
  | .bool _ => "boolean"
  | .num _ => "number"
  | .str _ => "string"
  | .arr _ => "object"
  | .obj _ => "object"

/-- Property access `v.k`: on an object, the last binding of the key (the
binding JSON.parse keeps for duplicate keys); `undefined` otherwise. -/
def JsValue.getProp (v : JsValue) (k : String) : JsValue :=
  match v with
  | .obj props =>
    match (props.filter (fun p => p.1 == k)).getLast? with
    | some p => p.2
    | none => .undefined
  | _ => .undefined

/-- JavaScript strict equality `v === s` against a string literal. -/
def jsStrictEqStr (v : JsValue) (s : String) : Bool :=
  match v with
  | .str t => t == s
  | _ => false

/-- `v.length` when `v` is known (by the preceding `typeof` check) to be a
string; `0` on non-strings (the branch is unreachable in the embedded code). -/
def jsStrLength : JsValue → Nat
  | .str s => s.length
  | _ => 0

/-- The four classified error kinds of `src/errors/sdk-error.ts`
(`ValidationError`, `NetworkError`, `TimeoutError`, `HTTPError`), each
carrying its `message` plus its extra structured fields. -/
inductive SdkError where
  | validation (msg : String)
  | network (msg : String)
  | timeout (msg : String) (t : Int)
  | http (msg : String) (status : Nat) (statusText : String) (data : JsValue)

/-- The `message` field of an SDK error. -/
def SdkError.message : SdkError → String
  | .validation m => m
  | .network m => m
  | .timeout m _ => m
  | .http m _ _ _ => m

/-- A thrown JavaScript value as observed by a `catch` block: a classified SDK
error, a `TypeError` (what `fetch` throws on connectivity failure), some other
`Error` instance, or a thrown non-`Error` value. -/
inductive JsErr where
  | sdk (e : SdkError)
  | typeError (msg : String)
  | plain (msg : String)
  | nonError

/-- `error instanceof Error ? error.message : "Unknown error"`. -/
def JsErr.errMessageOrUnknown : JsErr → String
  | .sdk e => e.message
  | .typeError m => m
  | .plain m => m
  | .nonError => "Unknown error"

/-- Whether a thrown value is one of the four classified taxonomy kinds. -/
def JsErr.isClassified : JsErr → Bool
  | .sdk _ => true
  | _ => false

/-! ## Text encoding (`TextEncoder` / `TextDecoder`)

`signMessage` encodes string messages with `new TextEncoder().encode` (UTF-8)
and decodes byte messages with `new TextDecoder().decode` (UTF-8, invalid
sequences replaced by U+FFFD).  Bytes are modelled as `Nat` (a `Uint8Array`
element is always `< 256`). -/

/-- UTF-8 encoding of one Unicode scalar value (`TextEncoder` acts on the
scalar values of the string). -/
def utf8EncodeChar (c : Char) : List Nat :=
  let n := c.toNat
  if n < 0x80 then [n]
  else if n < 0x800 then [0xC0 + n / 64, 0x80 + n % 64]
  else if n < 0x10000 then
    [0xE0 + n / 4096, 0x80 + (n / 64) % 64, 0x80 + n % 64]
  else
    [0xF0 + n / 262144, 0x80 + (n / 4096) % 64, 0x80 + (n / 64) % 64, 0x80 + n % 64]

/-- `new TextEncoder().encode(s)` as a byte list. -/
def textEncode (s : String) : List Nat := s.data.flatMap utf8EncodeChar

/-- The U+FFFD replacement character emitted by `TextDecoder` for invalid
input. -/
def replChar : Char := Char.ofNat 0xFFFD

/-- UTF-8 decoding of a byte list, following the WHATWG decoder used by
`TextDecoder`: lead-byte ranges C2–DF (one continuation), E0–EF (two, with the
narrowed first-continuation windows for E0 and ED that exclude overlong forms
and surrogates), F0–F4 (three, with the narrowed windows for F0 and F4), all
other leads invalid.  An invalid byte yields U+FFFD; decoding resumes at the
first unconsumed byte. -/
def utf8Decode : List Nat → List Char
  | [] => []
  | b0 :: rest =>
    if b0 < 0x80 then Char.ofNat b0 :: utf8Decode rest
    else if 0xC2 ≤ b0 ∧ b0 ≤ 0xDF then
      match rest with
      | b1 :: rest1 =>
        if 0x80 ≤ b1 ∧ b1 ≤ 0xBF then
          Char.ofNat ((b0 - 0xC0) * 64 + (b1 - 0x80)) :: utf8Decode rest1
        else replChar :: utf8Decode (b1 :: rest1)
      | [] => [replChar]
    else if 0xE0 ≤ b0 ∧ b0 ≤ 0xEF then
      match rest with
      | b1 :: rest1 =>
        if (if b0 = 0xE0 then 0xA0 else 0x80) ≤ b1 ∧
            b1 ≤ (if b0 = 0xED then 0x9F else 0xBF) then
          match rest1 with
          | b2 :: rest2 =>
            if 0x80 ≤ b2 ∧ b2 ≤ 0xBF then
              Char.ofNat ((b0 - 0xE0) * 4096 + (b1 - 0x80) * 64 + (b2 - 0x80)) ::
                utf8Decode rest2
            else replChar :: utf8Decode (b2 :: rest2)
          | [] => [replChar]
        else replChar :: utf8Decode (b1 :: rest1)
      | [] => [replChar]
    else if 0xF0 ≤ b0 ∧ b0 ≤ 0xF4 then
      match rest with
      | b1 :: rest1 =>
        if (if b0 = 0xF0 then 0x90 else 0x80) ≤ b1 ∧
            b1 ≤ (if b0 = 0xF4 then 0x8F else 0xBF) then
          match rest1 with
          | b2 :: rest2 =>
            if 0x80 ≤ b2 ∧ b2 ≤ 0xBF then
              match rest2 with
              | b3 :: rest3 =>
                if 0x80 ≤ b3 ∧ b3 ≤ 0xBF then
                  Char.ofNat ((b0 - 0xF0) * 262144 + (b1 - 0x80) * 4096 +
                      (b2 - 0x80) * 64 + (b3 - 0x80)) :: utf8Decode rest3
                else replChar :: utf8Decode (b3 :: rest3)
              | [] => [replChar]
            else replChar :: utf8Decode (b2 :: rest2)
          | [] => [replChar]
        else replChar :: utf8Decode (b1 :: rest1)
      | [] => [replChar]
    else replChar :: utf8Decode rest
termination_by l => l.length
decreasing_by all_goals simp <;> omega

/-- `new TextDecoder().decode(bytes)`. -/
def textDecode (bs : List Nat) : String := ⟨utf8Decode bs⟩

/-- The Unicode scalar value of a `Char`, as a `Nat`, is a valid scalar value
(below the surrogate block or strictly between it and 0x110000). -/
theorem char_toNat_valid (c : Char) :
    c.toNat < 0xD800 ∨ (0xDFFF < c.toNat ∧ c.toNat < 0x110000) := by
  rcases c.valid with h | ⟨h1, h2⟩
  · exact Or.inl h
  · exact Or.inr ⟨h1, h2⟩

/-- Decoding a UTF-8 encoded scalar value at the head of a byte stream yields
that scalar value back and continues with the rest of the stream. -/
theorem utf8Decode_encodeChar (c : Char) (tail : List Nat) :
    utf8Decode (utf8EncodeChar c ++ tail) = c :: utf8Decode tail := by
  have hv := char_toNat_valid c
  have hofc : Char.ofNat c.toNat = c := Char.ofNat_toNat c
  by_cases h1 : c.toNat < 0x80
  · simp only [utf8EncodeChar, if_pos h1, List.cons_append, List.nil_append]
    rw [utf8Decode.eq_def]
    dsimp only
    rw [if_pos h1, hofc]
  · by_cases h2 : c.toNat < 0x800
    · simp only [utf8EncodeChar, if_neg h1, if_pos h2, List.cons_append, List.nil_append]
      rw [utf8Decode.eq_def]
      dsimp only
      rw [if_neg (by omega), if_pos (by omega), if_pos (by omega)]
      have he : (0xC0 + c.toNat / 64 - 0xC0) * 64 + (0x80 + c.toNat % 64 - 0x80)
          = c.toNat := by omega
      rw [he, hofc]
    · by_cases h3 : c.toNat < 0x10000
      · simp only [utf8EncodeChar, if_neg h1, if_neg h2, if_pos h3, List.cons_append,
          List.nil_append]
        rw [utf8Decode.eq_def]
        dsimp only
        rw [if_neg (by omega), if_neg (by omega), if_pos (by omega)]
        rw [if_pos ?hcont1]
        case hcont1 =>
          constructor
          · split
            · omega
            · omega
          · split
            · -- lead byte 0xED means the scalar is in [0xD000, 0xDFFF]; validity
              -- excludes the surrogates, so the continuation stays ≤ 0x9F
              omega
            · omega
        rw [if_pos (by omega)]
        have he : (0xE0 + c.toNat / 4096 - 0xE0) * 4096 +
            (0x80 + c.toNat / 64 % 64 - 0x80) * 64 + (0x80 + c.toNat % 64 - 0x80)
            = c.toNat := by omega
        rw [he, hofc]
      · simp only [utf8EncodeChar, if_neg h1, if_neg h2, if_neg h3, List.cons_append,
          List.nil_append]
        have hub : c.toNat < 0x110000 := by omega
        rw [utf8Decode.eq_def]
        dsimp only
        rw [if_neg (by omega), if_neg (by omega), if_neg (by omega),
          if_pos (by omega)]
        rw [if_pos ?hcont2]
        case hcont2 =>
          constructor
          · split
            · omega
            · omega
          · split
            · omega
            · omega
        rw [if_pos (by omega), if_pos (by omega)]
        have he : (0xF0 + c.toNat / 262144 - 0xF0) * 262144 +
            (0x80 + c.toNat / 4096 % 64 - 0x80) * 4096 +
            (0x80 + c.toNat / 64 % 64 - 0x80) * 64 + (0x80 + c.toNat % 64 - 0x80)
            = c.toNat := by omega
        rw [he, hofc]

/-- UTF-8 decoding is a left inverse of encoding: decoding the `TextEncoder`
output of any string recovers the string. -/
theorem textDecode_textEncode (s : String) : textDecode (textEncode s) = s := by
  suffices h : ∀ l : List Char, utf8Decode (l.flatMap utf8EncodeChar) = l by
    cases s with
    | mk data => simp only [textDecode, textEncode, h]
  intro l
  induction l with
  | nil => rw [List.flatMap_nil, utf8Decode.eq_def]
  | cons c cs ih => rw [List.flatMap_cons, utf8Decode_encodeChar, ih]

/-! ## JSON serialization (`JSON.stringify`) and URL encoding

Used by the transport layer to attach request bodies, and by
`getWalletBalance` to build the query string.  Number rendering covers every
rational with a finite decimal expansion (all values produced by the SDK's
callers through IEEE doubles have one); other rationals get a fallback
rendering that no modelled code path produces. -/

/-- Uppercase hex digit (for percent-encoding). -/
def hexDigitUpper (n : Nat) : Char :=
  if n < 10 then Char.ofNat (48 + n) else Char.ofNat (55 + n)

/-- Lowercase hex digit (for `\u00..` escapes in `JSON.stringify`). -/
def hexDigitLower (n : Nat) : Char :=
  if n < 10 then Char.ofNat (48 + n) else Char.ofNat (87 + n)

/-- `JSON.stringify` escaping of one character. -/
def escapeJsonChar (c : Char) : List Char :=
  if c = '"' then ['\\', '"']
  else if c = '\\' then ['\\', '\\']
  else if c.toNat = 10 then ['\\', 'n']
  else if c.toNat = 9 then ['\\', 't']
  else if c.toNat = 13 then ['\\', 'r']
  else if c.toNat = 8 then ['\\', 'b']
  else if c.toNat = 12 then ['\\', 'f']
  else if c.toNat < 32 then
    ['\\', 'u', '0', '0', hexDigitLower (c.toNat / 16), hexDigitLower (c.toNat % 16)]
  else [c]

/-- `JSON.stringify` escaping of a string's contents. -/
def escapeJsonString (s : String) : String := ⟨s.data.flatMap escapeJsonChar⟩

/-- Smallest number of decimal digits after the point needed to render `q`
exactly, if at most 20 suffice. -/
def decExp (q : ℚ) : Option Nat :=
  (List.range 21).find? (fun k => (q * (10 : ℚ) ^ k).den = 1)

/-- Left-pad a digit string with zeros to length `k`. -/
def padZeros (k : Nat) (s : String) : String :=
  ⟨List.replicate (k - s.length) '0'⟩ ++ s

/-- Rendering of a JavaScript number, as `JSON.stringify` / template literals
print it: integers without a point, other values with their shortest exact
decimal expansion. -/
def jsNumToString (q : ℚ) : String :=
  match decExp q with
  | some 0 => toString q.num
  | some k =>
    let n := (q * (10 : ℚ) ^ k).num
    let sign := if n < 0 then "-" else ""
    let a := n.natAbs
    sign ++ toString (a / 10 ^ k) ++ "." ++ padZeros k (toString (a % 10 ^ k))
  | none => toString q.num ++ "/" ++ toString q.den

mutual

/-- `JSON.stringify` of a value.  (`undefined` only ever reaches this function
as an array element, where JS serializes it as `null`; object properties with
`undefined` values are omitted, see `jsonStringifyProps`.) -/
def jsonStringify : JsValue → String
  | .undefined => "null"
  | .null => "null"
  | .bool true => "true"
  | .bool false => "false"
  | .num q => jsNumToString q
  | .str s => "\"" ++ escapeJsonString s ++ "\""
  | .arr xs => "[" ++ String.intercalate "," (jsonStringifyElems xs) ++ "]"
  | .obj kvs => "\x7b" ++ String.intercalate "," (jsonStringifyProps kvs) ++ "\x7d"

/-- Serialized forms of the elements of an array. -/
def jsonStringifyElems : List JsValue → List String
  | [] => []
  | x :: xs => jsonStringify x :: jsonStringifyElems xs

/-- Serialized `"key":value` fragments of an object; properties whose value is
`undefined` are omitted, as `JSON.stringify` does. -/
def jsonStringifyProps : List (String × JsValue) → List String
  | [] => []
  | (k, v) :: kvs =>
    match v with
    | .undefined => jsonStringifyProps kvs
    | _ => ("\"" ++ escapeJsonString k ++ "\":" ++ jsonStringify v) ::
        jsonStringifyProps kvs

end

/-- The characters `encodeURIComponent` leaves unescaped:
`A–Z a–z 0–9 - _ . ! ~ * ' ( )`. -/
def isUriUnreserved (c : Char) : Bool :=
  decide ((65 ≤ c.toNat ∧ c.toNat ≤ 90) ∨ (97 ≤ c.toNat ∧ c.toNat ≤ 122) ∨
    (48 ≤ c.toNat ∧ c.toNat ≤ 57) ∨ c.toNat ∈ [45, 95, 46, 33, 126, 42, 39, 40, 41])

/-- Percent-encoding of one byte, uppercase hex. -/
def percentByte (b : Nat) : List Char :=
  ['%', hexDigitUpper (b / 16), hexDigitUpper (b % 16)]

/-- `encodeURIComponent`: unreserved characters pass through, everything else
is percent-encoded from its UTF-8 bytes. -/
def encodeURIComponent (s : String) : String :=
  ⟨s.data.flatMap (fun c =>
    if isUriUnreserved c then [c] else (utf8EncodeChar c).flatMap percentByte)⟩

/-! ## Transport layer (`src/utils/timeout.ts`, `src/utils/http.ts`) -/

/-- The response object an injected transport function resolves with: the
fields of the `fetch` `Response` contract the code reads (`ok`, `status`,
`statusText`, the `content-type` header, and the two body readers `json()`
and `text()`, each modelled with its possible rejection). -/
structure JsResponse where
  ok : Bool
  status : Nat
  statusText : String
  contentType : Option String
  json : Except JsErr JsValue
  text : Except JsErr String

/-- Behaviour of one invocation of the injected transport function: resolve
with a response, reject with a thrown value, or fail to settle before the
deadline of the surrounding `Promise.race`. -/
inductive FetchOutcome where
  | resolve (r : JsResponse)
  | reject (e : JsErr)
  | never

/-- The request descriptor (`RequestInit`) handed to the transport function:
method, headers, and an optional serialized body (`none` = the `body` field is
absent from the descriptor). -/
structure RequestInit where
  method : String
  headers : List (String × String)
  body : Option String

/-- An injected transport function (`config.fetch`): maps the url and request
descriptor to the outcome of the call. -/
def Transport : Type := String → RequestInit → FetchOutcome

/-- Header merge `{"Content-Type": "application/json", ...headers}`: the
default entry survives only when the caller supplies no entry with the exact
key `Content-Type`. -/
def mergeHeaders (headers : List (String × String)) : List (String × String) :=
  (if headers.any (fun p => p.1 == "Content-Type") then []
   else [("Content-Type", "application/json")]) ++ headers

/-- Construction of the request descriptor in `httpRequest`
(`src/utils/http.ts` lines 21–31): method, merged headers, and —
`if (body) requestInit.body = JSON.stringify(body)` — a serialized body
attached only when a body value was supplied *and* that value is truthy. -/
def mkRequestInit (method : String) (headers : List (String × String))
    (body : Option JsValue) : RequestInit :=
  { method := method
    headers := mergeHeaders headers
    body := match body with
            | some b => if b.truthy then some (jsonStringify b) else none
            | none => none }

/-- `withTimeout` (`src/utils/timeout.ts`): `Promise.race` of the transport
call against `createTimeoutPromise(timeout)`.  If the call does not settle
before the deadline, the race rejects with
`TimeoutError("Request timeout after <t>ms", t)`. -/
def withTimeout (fo : FetchOutcome) (timeout : Int) : Except JsErr JsResponse :=
  match fo with
  | .resolve r => .ok r
  | .reject e => .error e
  | .never => .error (.sdk (.timeout ("Request timeout after " ++ toString timeout ++ "ms") timeout))

/-- Substring test over characters (`String.prototype.includes`). -/
def listIsInfixOf (needle hay : List Char) : Bool :=
  needle.isPrefixOf hay ||
    match hay with
    | [] => false
    | _ :: t => listIsInfixOf needle t

/-- `s.includes(pat)`. -/
def strIncludes (s pat : String) : Bool := listIsInfixOf pat.data s.data

/-- The `catch` block of `httpRequest` (`src/utils/http.ts` lines 61–77):
`HTTPError` and `NetworkError` are re-thrown; a `TypeError` (the class `fetch`
throws on connectivity failure) is wrapped as
`NetworkError("Network request failed: <msg>", cause)`; everything else —
including `ValidationError`, `TimeoutError`, other `Error`s and non-`Error`
values — is re-thrown unchanged. -/
def httpCatch (e : JsErr) : JsErr :=
  match e with
  | .sdk (.http ..) => e
  | .sdk (.network ..) => e
  | .typeError m => .sdk (.network ("Network request failed: " ++ m))
  | _ => e

/-- `httpRequest` (`src/utils/http.ts`): build the descriptor, run the
transport under the timeout race, parse the body JSON-first (JSON whenever the
declared content type contains `application/json`, text for other successful
responses, nothing otherwise), throw `HTTPError` on a non-ok response, and
classify caught errors with `httpCatch`.  The `method` argument is the
destructured option with its `"GET"` default already applied by the caller. -/
def httpRequest (url : String) (method : String) (headers : List (String × String))
    (body : Option JsValue) (timeout : Int) (tr : Transport) : Except JsErr JsValue :=
  let requestInit := mkRequestInit method headers body
  let tryResult : Except JsErr JsValue :=
    match withTimeout (tr url requestInit) timeout with
    | .error e => .error e
    | .ok response =>
      let dataE : Except JsErr JsValue :=
        match response.contentType with
        | some ct =>
          if strIncludes ct "application/json" then response.json
          else if response.ok then Except.map JsValue.str response.text
          else .ok .undefined
        | none =>
          if response.ok then Except.map JsValue.str response.text
          else .ok .undefined
      match dataE with
      | .error e => .error e
      | .ok data =>
        if response.ok then .ok data
        else .error (.sdk (.http
          ("HTTP " ++ toString response.status ++ ": " ++ response.statusText)
          response.status response.statusText data))
  match tryResult with
  | .ok v => .ok v
  | .error e => .error (httpCatch e)

/-- `get` (`src/utils/http.ts`): `httpRequest` with method `GET` and no body. -/
def get (url : String) (timeout : Int) (tr : Transport) : Except JsErr JsValue :=
  httpRequest url "GET" [] none timeout tr

/-- `post` (`src/utils/http.ts`): `httpRequest` with method `POST` and the
given body. -/
def post (url : String) (body : JsValue) (timeout : Int) (tr : Transport) :
    Except JsErr JsValue :=
  httpRequest url "POST" [] (some body) timeout tr

/-! ## Configuration (`src/types/index.ts`, `src/config.ts`)

The injected `fetch` capability is carried separately as a `Transport`
argument in the model; an absent `baseUrl` in the raw input behaves exactly
like the empty string under the code's truthiness checks and is modelled by
`none`. -/

/-- The raw `Partial<PipelinkConfig>` handed to `normalizeConfig`. -/
structure PartialConfig where
  baseUrl : Option String
  network : Option String
  timeout : Option Int

/-- The normalized `PipelinkConfig` the operations receive. -/
structure PipelinkConfig where
  baseUrl : String
  network : String
  timeout : Option Int
deriving DecidableEq

/-- `p.isPrefixOf s` over characters: does `s` start with `p`?  Models
`String.prototype.startsWith`. -/
def listStartsWith : List Char → List Char → Bool
  | [], _ => true
  | _ :: _, [] => false
  | p :: ps, c :: cs => p == c && listStartsWith ps cs

/-- `s.startsWith(p)`. -/
def strStartsWith (s p : String) : Bool := listStartsWith p.data s.data

/-- `s.replace(/\/$/, "")`: removes one trailing slash if present (the regex
is anchored and not global, so at most one character is removed). -/
def stripTrailingSlash (s : String) : String :=
  match s.data.getLast? with
  | some '/' => ⟨s.data.dropLast⟩
  | _ => s

/-- `config.timeout || 30000`: `undefined` and `0` (the falsy numbers) fall
back to the 30000 default, every other value — including negative ones —
passes through. -/
def effTimeout (t : Option Int) : Int :=
  match t with
  | none => 30000
  | some v => if v = 0 then 30000 else v

/-- `normalizeConfig` (`src/config.ts`): reject a falsy `baseUrl` with
`Error("baseUrl is required")`, reject a `baseUrl` that starts with neither
`http://` nor `https://`, strip one trailing slash, default `network` to
`"mainnet-beta"` and `timeout` to 30000 (both via `||`).  The errors are plain
`Error`s (generic configuration errors), modelled by their message string. -/
def normalizeConfig (config : PartialConfig) : Except String PipelinkConfig :=
  match config.baseUrl with
  | none => .error "baseUrl is required"
  | some u =>
    if u = "" then .error "baseUrl is required"
    else if !strStartsWith u "http://" && !strStartsWith u "https://" then
      .error "baseUrl must start with http:// or https://"
    else .ok
      { baseUrl := stripTrailingSlash u
        network := match config.network with
                   | none => "mainnet-beta"
                   | some n => if n = "" then "mainnet-beta" else n
        timeout := some (effTimeout config.timeout) }

/-! ## Operations

Each network operation returns the pair of its outcome and the number of
invocations of the injected transport function.  The `try`/`catch` wrappers of
`verifySignature`, `getWalletBalance` and `createPipeline` re-throw
`ValidationError`s and then re-throw everything else, so they are the
identity on thrown values and the `match` on the transport result models them
exactly. -/

/-- `getWalletBalance` (`src/wallet/balance.ts`): validate the address (a
falsy or empty string fails; the argument is typed `string` so the
`typeof` arm of the first check cannot fire), validate `config.baseUrl`, GET
`/api/wallet/balance?address=<encodeURIComponent(address)>`, then validate the
response: a truthy object, `typeof balance === "number"`, `unit === "SOL"`. -/
def getWalletBalance (address : String) (config : PipelinkConfig) (tr : Transport) :
    Except JsErr JsValue × Nat :=
  if address = "" then
    (.error (.sdk (.validation "Valid wallet address is required")), 0)
  else if address.length = 0 then
    (.error (.sdk (.validation "Wallet address cannot be empty")), 0)
  else if config.baseUrl = "" then
    (.error (.sdk (.validation "SDK config is invalid")), 0)
  else
    let url := config.baseUrl ++ "/api/wallet/balance?address=" ++ encodeURIComponent address
    let timeout := effTimeout config.timeout
    let result : Except JsErr JsValue :=
      match get url timeout tr with
      | .error e => .error e
      | .ok response =>
        if !response.truthy || response.typeOf != "object" then
          .error (.sdk (.validation "Invalid response from wallet balance endpoint"))
        else if (response.getProp "balance").typeOf != "number" then
          .error (.sdk (.validation "Balance must be a number"))
        else if !jsStrictEqStr (response.getProp "unit") "SOL" then
          .error (.sdk (.validation "Unit must be SOL"))
        else .ok response
    (result, 1)

/-- The `AuthPayload` input of `verifySignature` (`wallet`, `message`,
`signature: number[]`). -/
structure AuthPayload where
  wallet : String
  message : String
  signature : List ℚ

/-- `verifySignature` (`src/auth/verify.ts`): validate the payload (falsy
wallet, falsy message, or an empty signature array fail; the argument is
typed `number[]` so the `Array.isArray` arm cannot fire), validate
`config.baseUrl`, POST the payload to `/api/auth/verify`, and validate that
the response is a truthy object (no deeper shape check). -/
def verifySignature (payload : AuthPayload) (config : PipelinkConfig) (tr : Transport) :
    Except JsErr JsValue × Nat :=
  if payload.wallet = "" then
    (.error (.sdk (.validation "Wallet address is required")), 0)
  else if payload.message = "" then
    (.error (.sdk (.validation "Message is required")), 0)
  else if payload.signature.length = 0 then
    (.error (.sdk (.validation "Valid signature array is required")), 0)
  else if config.baseUrl = "" then
    (.error (.sdk (.validation "SDK config is invalid")), 0)
  else
    let url := config.baseUrl ++ "/api/auth/verify"
    let timeout := effTimeout config.timeout
    let body : JsValue := .obj [("wallet", .str payload.wallet),
      ("message", .str payload.message),
      ("signature", .arr (payload.signature.map .num))]
    let result : Except JsErr JsValue :=
      match post url body timeout tr with
      | .error e => .error e
      | .ok response =>
        if !response.truthy || response.typeOf != "object" then
          .error (.sdk (.validation "Invalid response from auth verify endpoint"))
        else .ok response
    (result, 1)

/-- `createPipeline` (`src/pipeline/create.ts`): validate that the input is a
truthy object, that `name` is a truthy string (then the dead
`name.length === 0` check), validate `config.baseUrl`, POST the input
verbatim to `/api/pipeline/create`, and validate the response: a truthy
object whose `pipelineId` and `status` are truthy strings. -/
def createPipeline (pipelineConfig : JsValue) (config : PipelinkConfig) (tr : Transport) :
    Except JsErr JsValue × Nat :=
  if !pipelineConfig.truthy || pipelineConfig.typeOf != "object" then
    (.error (.sdk (.validation "Pipeline configuration is required")), 0)
  else if !(pipelineConfig.getProp "name").truthy ||
      (pipelineConfig.getProp "name").typeOf != "string" then
    (.error (.sdk (.validation "Pipeline name is required")), 0)
  else if jsStrLength (pipelineConfig.getProp "name") = 0 then
    (.error (.sdk (.validation "Pipeline name cannot be empty")), 0)
  else if config.baseUrl = "" then
    (.error (.sdk (.validation "SDK config is invalid")), 0)
  else
    let url := config.baseUrl ++ "/api/pipeline/create"
    let timeout := effTimeout config.timeout
    let result : Except JsErr JsValue :=
      match post url pipelineConfig timeout tr with
      | .error e => .error e
      | .ok response =>
        if !response.truthy || response.typeOf != "object" then
          .error (.sdk (.validation "Invalid response from pipeline create endpoint"))
        else if !(response.getProp "pipelineId").truthy ||
            (response.getProp "pipelineId").typeOf != "string" then
          .error (.sdk (.validation "Pipeline ID is required in response"))
        else if !(response.getProp "status").truthy ||
            (response.getProp "status").typeOf != "string" then
          .error (.sdk (.validation "Pipeline status is required in response"))
        else .ok response
    (result, 1)

/-! ## Signing (`src/auth/signer.ts`) -/

/-- The wallet adapter capability: an optional `signMessage` function (absent
models a falsy `signMessage` property) resolving with an optional byte
signature (`none` models a nullish resolution value, so that the code's
`!signature` check is meaningful) or rejecting with a thrown value, and an
optional public key given by its `toBase58()` string. -/
structure WalletAdapter where
  signMessage : Option (List Nat → Except JsErr (Option (List Nat)))
  publicKey : Option String

/-- The message argument of `signMessage`: a string or a `Uint8Array`. -/
inductive JsMessage where
  | str (s : String)
  | bytes (bs : List Nat)

/-- The byte form the signer receives: strings are UTF-8 encoded, byte
messages pass through. -/
def msgBytes : JsMessage → List Nat
  | .str s => textEncode s
  | .bytes bs => bs

/-- The `SignResult` record (`address`, original `message` text,
`signature`). -/
structure SignResult where
  address : String
  message : String
  signature : List Nat

/-- The `catch` block of `signMessage` (`src/auth/signer.ts` lines 52–60):
re-throw `ValidationError`s unchanged, wrap every other thrown value as
`ValidationError("Failed to sign message: <cause>")`. -/
def signCatch (r : Except JsErr SignResult) : Except JsErr SignResult :=
  match r with
  | .ok res => .ok res
  | .error (.sdk (.validation m)) => .error (.sdk (.validation m))
  | .error e =>
    .error (.sdk (.validation ("Failed to sign message: " ++ e.errMessageOrUnknown)))

/-- `signMessage` (`src/auth/signer.ts`): validate the adapter (present, has
`signMessage`, has `publicKey`), encode the message, reject an empty byte
message, call the signer inside `try`, reject a nullish or empty signature,
and build the result — the `message` field is the original string, or the
UTF-8 decoding when the caller supplied bytes.  The `catch` re-throws
`ValidationError`s and wraps every other thrown value as
`ValidationError("Failed to sign message: <cause>")`. -/
def signMessage (walletAdapter : Option WalletAdapter) (message : JsMessage) :
    Except JsErr SignResult :=
  match walletAdapter with
  | none => .error (.sdk (.validation "Wallet adapter is required"))
  | some wa =>
    match wa.signMessage with
    | none => .error (.sdk (.validation "Wallet adapter must support signMessage"))
    | some signFn =>
      match wa.publicKey with
      | none => .error (.sdk (.validation "Wallet adapter must have a publicKey"))
      | some pk =>
        let messageBytes := msgBytes message
        if messageBytes.length = 0 then
          .error (.sdk (.validation "Message cannot be empty"))
        else
          let tryResult : Except JsErr SignResult :=
            match signFn messageBytes with
            | .error e => .error e
            | .ok none => .error (.sdk (.validation "Wallet returned invalid signature"))
            | .ok (some signature) =>
              if signature.length = 0 then
                .error (.sdk (.validation "Wallet returned invalid signature"))
              else
                .ok { address := pk
                      message := match message with
                                 | .str s => s
                                 | .bytes bs => textDecode bs
                      signature := signature }
          signCatch tryResult

/-! ## Helper lemmas -/

/-- A value has `typeof` `"number"` exactly when it is a number. -/
theorem typeOf_number_iff (v : JsValue) : v.typeOf = "number" ↔ ∃ q, v = .num q := by
  cases v <;> simp [JsValue.typeOf]

/-- A value has `typeof` `"string"` exactly when it is a string. -/
theorem typeOf_string_iff (v : JsValue) : v.typeOf = "string" ↔ ∃ s, v = .str s := by
  cases v <;> simp [JsValue.typeOf]

/-- Strict equality against a string literal holds exactly for that string. -/
theorem jsStrictEqStr_iff (v : JsValue) (s : String) :
    jsStrictEqStr v s = true ↔ v = .str s := by
  cases v <;> simp [jsStrictEqStr]

/-- A string value is truthy exactly when it is non-empty. -/
theorem truthy_str_iff (s : String) : (JsValue.str s).truthy = true ↔ s ≠ "" := by
  simp [JsValue.truthy]

/-- A transport is tame when every rejection it produces — of the call itself
or of the `json()` or `text()` body readers of a response it resolves with —
is either already classified or a `TypeError` (the connectivity class `fetch`
itself throws). -/
def TransportTame (tr : Transport) : Prop :=
  ∀ url init,
    (∀ e, tr url init = .reject e → e.isClassified = true ∨ ∃ m, e = .typeError m) ∧
    (∀ r e, tr url init = .resolve r → r.json = .error e →
      e.isClassified = true ∨ ∃ m, e = .typeError m) ∧
    (∀ r e, tr url init = .resolve r → r.text = .error e →
      e.isClassified = true ∨ ∃ m, e = .typeError m)

/-- `httpCatch` turns a classified error or a `TypeError` into a classified
error. -/
theorem httpCatch_classified (e : JsErr)
    (h : e.isClassified = true ∨ ∃ m, e = .typeError m) :
    (httpCatch e).isClassified = true := by
  rcases h with h | ⟨m, rfl⟩
  · cases e with
    | sdk se => cases se <;> simp [httpCatch, JsErr.isClassified]
    | typeError m => simp [httpCatch, JsErr.isClassified]
    | plain m => simp [JsErr.isClassified] at h
    | nonError => simp [JsErr.isClassified] at h
  · simp [httpCatch, JsErr.isClassified]

/-- Every error produced by `httpRequest` over a tame transport is
classified. -/
theorem httpRequest_errors_classified (url method : String)
    (headers : List (String × String)) (body : Option JsValue) (timeout : Int)
    (tr : Transport) (htame : TransportTame tr)
    (e : JsErr) (he : httpRequest url method headers body timeout tr = .error e) :
    e.isClassified = true := by
  obtain ⟨hrej, hres, hres2⟩ := htame url (mkRequestInit method headers body)
  simp only [httpRequest] at he
  cases hfo : tr url (mkRequestInit method headers body) with
  | reject e0 =>
    rw [hfo] at he
    simp only [withTimeout] at he
    cases he
    exact httpCatch_classified e0 (hrej e0 hfo)
  | never =>
    rw [hfo] at he
    simp only [withTimeout] at he
    cases he
    exact httpCatch_classified _ (Or.inl rfl)
  | resolve r =>
    rw [hfo] at he
    simp only [withTimeout] at he
    split at he
    case _ v hv => exact absurd he (by simp)
    case _ e0 h0 =>
      cases he
      apply httpCatch_classified
      cases hctype : r.contentType with
      | some ct =>
        rw [hctype] at h0
        dsimp only at h0
        by_cases hinc : strIncludes ct "application/json" = true
        · rw [if_pos hinc] at h0
          cases hjson : r.json with
          | error e1 =>
            rw [hjson] at h0
            dsimp only at h0
            cases h0
            exact hres r _ hfo hjson
          | ok jv =>
            rw [hjson] at h0
            cases hok : r.ok <;> rw [hok] at h0
            · cases h0
              exact Or.inl rfl
            · exact absurd h0 (by simp)
        · rw [if_neg hinc] at h0
          cases hok : r.ok <;> rw [hok] at h0
          · simp only [if_true, if_false, Bool.false_eq_true, Bool.true_eq_false] at h0
            cases h0
            exact Or.inl rfl
          · cases htext : r.text with
            | error e2 =>
              rw [htext] at h0
              simp only [Except.map, if_true, if_false, Bool.false_eq_true,
                Bool.true_eq_false] at h0
              cases h0
              exact hres2 r _ hfo htext
            | ok s =>
              rw [htext] at h0
              simp only [Except.map, if_true, if_false, Bool.false_eq_true,
                Bool.true_eq_false] at h0
              exact absurd h0 (by simp)
      | none =>
        rw [hctype] at h0
        dsimp only at h0
        cases hok : r.ok <;> rw [hok] at h0
        · simp only [if_true, if_false, Bool.false_eq_true, Bool.true_eq_false] at h0
          cases h0
          exact Or.inl rfl
        · cases htext : r.text with
          | error e2 =>
            rw [htext] at h0
            simp only [Except.map, if_true, if_false, Bool.false_eq_true,
              Bool.true_eq_false] at h0
            cases h0
            exact hres2 r _ hfo htext
          | ok s =>
            rw [htext] at h0
            simp only [Except.map, if_true, if_false, Bool.false_eq_true,
              Bool.true_eq_false] at h0
            exact absurd h0 (by simp)

/-- `signCatch` leaves resolved values untouched. -/
theorem signCatch_ok_iff (x : Except JsErr SignResult) (r : SignResult) :
    signCatch x = .ok r ↔ x = .ok r := by
  cases x with
  | ok res => simp [signCatch]
  | error e =>
    rcases e with se | m | m | _
    · rcases se with m | m | ⟨m, t⟩ | ⟨m, s, st, d⟩ <;> simp [signCatch]
    all_goals simp [signCatch]

/-- Every error leaving `signCatch` is a `ValidationError`. -/
theorem signCatch_error_validation (x : Except JsErr SignResult) (e : JsErr)
    (h : signCatch x = .error e) : ∃ m, e = .sdk (.validation m) := by
  cases x with
  | ok res => simp [signCatch] at h
  | error e0 =>
    rcases e0 with se | m | m | _
    · rcases se with m | m | ⟨m, t⟩ | ⟨m, s, st, d⟩ <;>
        (simp [signCatch] at h; exact ⟨_, h.symm⟩)
    all_goals (simp [signCatch] at h; exact ⟨_, h.symm⟩)

/-- `signCatch` wraps a non-`ValidationError` cause as
`ValidationError("Failed to sign message: <cause>")`. -/
theorem signCatch_wraps (e0 : JsErr) (hnv : ∀ m, e0 ≠ .sdk (.validation m)) :
    signCatch (.error e0) =
      .error (.sdk (.validation ("Failed to sign message: " ++ e0.errMessageOrUnknown))) := by
  rcases e0 with se | m | m | _
  · rcases se with m | m | ⟨m, t⟩ | ⟨m, s, st, d⟩
    · exact absurd rfl (hnv m)
    all_goals rfl
  all_goals rfl

/-- A resolved `getWalletBalance` value passed every response validation: it
is a truthy object whose `balance` is a number and whose `unit` is exactly
`"SOL"`. -/
theorem getWalletBalance_ok_shape (address : String) (config : PipelinkConfig)
    (tr : Transport) (v : JsValue)
    (h : (getWalletBalance address config tr).1 = .ok v) :
    v.truthy = true ∧ v.typeOf = "object" ∧ (∃ q, v.getProp "balance" = .num q) ∧
      v.getProp "unit" = .str "SOL" := by
  unfold getWalletBalance at h
  split at h
  · simp at h
  split at h
  · simp at h
  split at h
  · simp at h
  dsimp only at h
  cases hget : get (config.baseUrl ++ "/api/wallet/balance?address=" ++
      encodeURIComponent address) (effTimeout config.timeout) tr with
  | error e => rw [hget] at h; simp at h
  | ok response =>
    rw [hget] at h
    dsimp only at h
    split at h
    · simp at h
    split at h
    · simp at h
    split at h
    · simp at h
    case _ h1 h2 h3 =>
      cases h
      simp only [Bool.or_eq_true, not_or, Bool.not_eq_true', Bool.not_eq_false,
        bne_iff_ne, ne_eq, not_not] at h1 h2 h3
      exact ⟨h1.1, h1.2, (typeOf_number_iff _).mp h2, (jsStrictEqStr_iff _ _).mp h3⟩

/-- A resolved `verifySignature` value passed the response validation: it is
a truthy object. -/
theorem verifySignature_ok_shape (payload : AuthPayload) (config : PipelinkConfig)
    (tr : Transport) (v : JsValue)
    (h : (verifySignature payload config tr).1 = .ok v) :
    v.truthy = true ∧ v.typeOf = "object" := by
  unfold verifySignature at h
  split at h
  · simp at h
  split at h
  · simp at h
  split at h
  · simp at h
  split at h
  · simp at h
  dsimp only at h
  cases hpost : post (config.baseUrl ++ "/api/auth/verify")
      (.obj [("wallet", .str payload.wallet), ("message", .str payload.message),
        ("signature", .arr (payload.signature.map .num))])
      (effTimeout config.timeout) tr with
  | error e => rw [hpost] at h; simp at h
  | ok response =>
    rw [hpost] at h
    dsimp only at h
    split at h
    · simp at h
    case _ h1 =>
      cases h
      simp only [Bool.or_eq_true, not_or, Bool.not_eq_true', Bool.not_eq_false,
        bne_iff_ne, ne_eq, not_not] at h1
      exact h1

/-- A resolved `createPipeline` value passed every response validation: it is
a truthy object whose `pipelineId` and `status` are non-empty strings. -/
theorem createPipeline_ok_shape (pipelineConfig : JsValue) (config : PipelinkConfig)
    (tr : Transport) (v : JsValue)
    (h : (createPipeline pipelineConfig config tr).1 = .ok v) :
    v.truthy = true ∧ v.typeOf = "object" ∧
      (∃ s, s ≠ "" ∧ v.getProp "pipelineId" = .str s) ∧
      (∃ s, s ≠ "" ∧ v.getProp "status" = .str s) := by
  unfold createPipeline at h
  split at h
  · simp at h
  split at h
  · simp at h
  split at h
  · simp at h
  split at h
  · simp at h
  dsimp only at h
  cases hpost : post (config.baseUrl ++ "/api/pipeline/create") pipelineConfig
      (effTimeout config.timeout) tr with
  | error e => rw [hpost] at h; simp at h
  | ok response =>
    rw [hpost] at h
    dsimp only at h
    split at h
    · simp at h
    split at h
    · simp at h
    split at h
    · simp at h
    case _ h1 h2 h3 =>
      cases h
      simp only [Bool.or_eq_true, not_or, Bool.not_eq_true', Bool.not_eq_false,
        bne_iff_ne, ne_eq, not_not] at h1 h2 h3
      obtain ⟨sid, hsid⟩ := (typeOf_string_iff _).mp h2.2
      obtain ⟨sst, hsst⟩ := (typeOf_string_iff _).mp h3.2
      refine ⟨h1.1, h1.2, ⟨sid, ?_, hsid⟩, ⟨sst, ?_, hsst⟩⟩
      · have := h2.1
        rw [hsid] at this
        exact (truthy_str_iff sid).mp this
      · have := h3.1
        rw [hsst] at this
        exact (truthy_str_iff sst).mp this

/-- Every error produced by `getWalletBalance` over a tame transport is
classified. -/
theorem getWalletBalance_errors_classified (address : String) (config : PipelinkConfig)
    (tr : Transport) (htame : TransportTame tr) (e : JsErr)
    (h : (getWalletBalance address config tr).1 = .error e) :
    e.isClassified = true := by
  unfold getWalletBalance at h
  split at h
  · cases h; rfl
  split at h
  · cases h; rfl
  split at h
  · cases h; rfl
  dsimp only at h
  cases hget : get (config.baseUrl ++ "/api/wallet/balance?address=" ++
      encodeURIComponent address) (effTimeout config.timeout) tr with
  | error e0 =>
    rw [hget] at h
    dsimp only at h
    cases h
    exact httpRequest_errors_classified _ _ _ _ _ _ htame _ hget
  | ok response =>
    rw [hget] at h
    dsimp only at h
    split at h
    · cases h; rfl
    split at h
    · cases h; rfl
    split at h
    · cases h; rfl
    · simp at h

/-- Every error produced by `verifySignature` over a tame transport is
classified. -/
theorem verifySignature_errors_classified (payload : AuthPayload)
    (config : PipelinkConfig) (tr : Transport) (htame : TransportTame tr) (e : JsErr)
    (h : (verifySignature payload config tr).1 = .error e) :
    e.isClassified = true := by
  unfold verifySignature at h
  split at h
  · cases h; rfl
  split at h
  · cases h; rfl
  split at h
  · cases h; rfl
  split at h
  · cases h; rfl
  dsimp only at h
  cases hpost : post (config.baseUrl ++ "/api/auth/verify")
      (.obj [("wallet", .str payload.wallet), ("message", .str payload.message),
        ("signature", .arr (payload.signature.map .num))])
      (effTimeout config.timeout) tr with
  | error e0 =>
    rw [hpost] at h
    dsimp only at h
    cases h
    exact httpRequest_errors_classified _ _ _ _ _ _ htame _ hpost
  | ok response =>
    rw [hpost] at h
    dsimp only at h
    split at h
    · cases h; rfl
    · simp at h

/-- Every error produced by `createPipeline` over a tame transport is
classified. -/
theorem createPipeline_errors_classified (pipelineConfig : JsValue)
    (config : PipelinkConfig) (tr : Transport) (htame : TransportTame tr) (e : JsErr)
    (h : (createPipeline pipelineConfig config tr).1 = .error e) :
    e.isClassified = true := by
  unfold createPipeline at h
  split at h
  · cases h; rfl
  split at h
  · cases h; rfl
  split at h
  · cases h; rfl
  split at h
  · cases h; rfl
  dsimp only at h
  cases hpost : post (config.baseUrl ++ "/api/pipeline/create") pipelineConfig
      (effTimeout config.timeout) tr with
  | error e0 =>
    rw [hpost] at h
    dsimp only at h
    cases h
    exact httpRequest_errors_classified _ _ _ _ _ _ htame _ hpost
  | ok response =>
    rw [hpost] at h
    dsimp only at h
    split at h
    · cases h; rfl
    split at h
    · cases h; rfl
    split at h
    · cases h; rfl
    · simp at h

/-- Every error produced by `signMessage` — under any adapter behaviour — is a
`ValidationError`. -/
theorem signMessage_errors_validation (walletAdapter : Option WalletAdapter)
    (message : JsMessage) (e : JsErr) (h : signMessage walletAdapter message = .error e) :
    ∃ m, e = .sdk (.validation m) := by
  unfold signMessage at h
  cases walletAdapter with
  | none => cases h; exact ⟨_, rfl⟩
  | some wa =>
    dsimp only at h
    cases hsf : wa.signMessage with
    | none => rw [hsf] at h; cases h; exact ⟨_, rfl⟩
    | some signFn =>
      rw [hsf] at h
      dsimp only at h
      cases hpk : wa.publicKey with
      | none => rw [hpk] at h; cases h; exact ⟨_, rfl⟩
      | some pk =>
        rw [hpk] at h
        dsimp only at h
        split at h
        · cases h; exact ⟨_, rfl⟩
        cases hsig : signFn (msgBytes message) with
        | error e0 =>
          rw [hsig] at h
          dsimp only at h
          exact signCatch_error_validation _ _ h
        | ok osig =>
          rw [hsig] at h
          cases osig with
          | none => dsimp only at h; exact signCatch_error_validation _ _ h
          | some signature =>
            dsimp only at h
            exact signCatch_error_validation _ _ h

/-- A resolved `signMessage` result passed the signature validation (the
signature is non-empty) and carries the adapter's public key and the original
message text. -/
theorem signMessage_ok_shape (walletAdapter : Option WalletAdapter)
    (message : JsMessage) (r : SignResult)
    (h : signMessage walletAdapter message = .ok r) :
    r.signature ≠ [] ∧
    (∃ wa, walletAdapter = some wa ∧ wa.publicKey = some r.address) ∧
    (∀ s, message = .str s → r.message = s) ∧
    (∀ bs, message = .bytes bs → r.message = textDecode bs) := by
  unfold signMessage at h
  cases walletAdapter with
  | none => simp at h
  | some wa =>
    dsimp only at h
    cases hsf : wa.signMessage with
    | none => rw [hsf] at h; simp at h
    | some signFn =>
      rw [hsf] at h
      dsimp only at h
      cases hpk : wa.publicKey with
      | none => rw [hpk] at h; simp at h
      | some pk =>
        rw [hpk] at h
        dsimp only at h
        split at h
        · simp at h
        cases hsig : signFn (msgBytes message) with
        | error e0 =>
          rw [hsig] at h
          dsimp only at h
          rw [signCatch_ok_iff] at h
          simp at h
        | ok osig =>
          rw [hsig] at h
          cases osig with
          | none =>
            dsimp only at h
            rw [signCatch_ok_iff] at h
            simp at h
          | some signature =>
            dsimp only at h
            rw [signCatch_ok_iff] at h
            split at h
            · simp at h
            case _ hlen =>
              cases h
              refine ⟨by simpa using hlen, ⟨wa, rfl, hpk⟩, ?_, ?_⟩
              · intro s hs
                subst hs
                rfl
              · intro bs hbs
                subst hbs
                rfl

/-! ## Claim theorems -/

/-- C1 (corrected).  Over a *tame* transport — one whose own rejections, and
the rejections of the `json()` and `text()` body readers of any response it
resolves with, are already classified or are `TypeError`s (the class the
platform `fetch` throws on connectivity failure) — every public
operation either resolves with a value that passed its full response
validation or rejects with exactly one of the four classified kinds; and
`signMessage` does so for *every* behaviour of the signer capability.  As
stated, with an arbitrary unclassified transport rejection, the claim is
false: see the counterexample, where a generic `Error` rejection reaches the
caller unclassified. -/
theorem c1_classified_amended (tr : Transport) (htame : TransportTame tr)
    (address : String) (payload : AuthPayload) (pipelineConfig : JsValue)
    (config : PipelinkConfig) (walletAdapter : Option WalletAdapter)
    (message : JsMessage) :
    (∀ e, (getWalletBalance address config tr).1 = .error e → e.isClassified = true) ∧
    (∀ v, (getWalletBalance address config tr).1 = .ok v →
      v.typeOf = "object" ∧ (∃ q, v.getProp "balance" = .num q) ∧
        v.getProp "unit" = .str "SOL") ∧
    (∀ e, (verifySignature payload config tr).1 = .error e → e.isClassified = true) ∧
    (∀ v, (verifySignature payload config tr).1 = .ok v → v.typeOf = "object") ∧
    (∀ e, (createPipeline pipelineConfig config tr).1 = .error e → e.isClassified = true) ∧
    (∀ v, (createPipeline pipelineConfig config tr).1 = .ok v →
      v.typeOf = "object" ∧ (∃ s, s ≠ "" ∧ v.getProp "pipelineId" = .str s) ∧
        (∃ s, s ≠ "" ∧ v.getProp "status" = .str s)) ∧
    (∀ e, signMessage walletAdapter message = .error e → e.isClassified = true) ∧
    (∀ r, signMessage walletAdapter message = .ok r → r.signature ≠ []) := by
  refine ⟨?_, ?_, ?_, ?_, ?_, ?_, ?_, ?_⟩
  · exact fun e h => getWalletBalance_errors_classified address config tr htame e h
  · intro v h
    obtain ⟨-, h2, h3, h4⟩ := getWalletBalance_ok_shape address config tr v h
    exact ⟨h2, h3, h4⟩
  · exact fun e h => verifySignature_errors_classified payload config tr htame e h
  · exact fun v h => (verifySignature_ok_shape payload config tr v h).2
  · exact fun e h => createPipeline_errors_classified pipelineConfig config tr htame e h
  · intro v h
    obtain ⟨-, h2, h3, h4⟩ := createPipeline_ok_shape pipelineConfig config tr v h
    exact ⟨h2, h3, h4⟩
  · intro e h
    obtain ⟨m, rfl⟩ := signMessage_errors_validation walletAdapter message e h
    rfl
  · exact fun r h => (signMessage_ok_shape walletAdapter message r h).1

/-- Witness for C1: a transport that never settles is tame; `getWalletBalance`
over it rejects with the (classified) `TimeoutError`. -/
theorem c1_classified_amended_witness :
    JsErr.isClassified (.sdk (.timeout "Request timeout after 100ms" 100)) = true :=
  (c1_classified_amended (fun _ _ => .never)
      (fun _ _ => ⟨(fun _ h => nomatch h), (fun _ _ h _ => nomatch h),
        (fun _ _ h _ => nomatch h)⟩)
      "addr" ⟨"w", "m", [1]⟩ (.obj [("name", .str "x")])
      ⟨"https://a", "mainnet-beta", some 100⟩ none (.str "hi")).1
    _ rfl

/-- Counterexample to C1 as stated: when the injected transport rejects with a
generic `Error` — neither one of the four classified kinds nor a `TypeError` —
`getWalletBalance` rejects with that raw error unchanged, which is not one of
the four classified kinds. -/
theorem c1_counterexample :
    (getWalletBalance "addr" ⟨"https://api.example.com", "mainnet-beta", some 5000⟩
      (fun _ _ => .reject (.plain "boom"))).1 = .error (.plain "boom") ∧
    JsErr.isClassified (.plain "boom") = false :=
  ⟨rfl, rfl⟩

/-- `listStartsWith p s` holds exactly when `s` decomposes as `p ++ t`. -/
theorem listStartsWith_iff (p s : List Char) :
    listStartsWith p s = true ↔ ∃ t, s = p ++ t := by
  induction p generalizing s with
  | nil => simp [listStartsWith]
  | cons a ps ih =>
    cases s with
    | nil => simp [listStartsWith]
    | cons b bs =>
      simp only [listStartsWith, Bool.and_eq_true, beq_iff_eq, ih, List.cons_append,
        List.cons.injEq]
      constructor
      · rintro ⟨rfl, t, rfl⟩
        exact ⟨t, rfl, rfl⟩
      · rintro ⟨t, rfl, rfl⟩
        exact ⟨rfl, t, rfl⟩

/-- A string with a non-empty prefix is non-empty. -/
theorem strStartsWith_ne_empty (u p : String) (hp : p.data.length ≠ 0)
    (h : strStartsWith u p = true) : u ≠ "" := by
  obtain ⟨t, ht⟩ := (listStartsWith_iff _ _).mp h
  intro h0
  subst h0
  have hlen := congrArg List.length ht
  rw [List.length_append] at hlen
  have hnil : ("".data : List Char).length = 0 := rfl
  omega

/-- `stripTrailingSlash` on a string ending in `/` drops that character. -/
theorem stripTrailingSlash_of_slash (s : String) (h : s.data.getLast? = some '/') :
    stripTrailingSlash s = ⟨s.data.dropLast⟩ := by
  unfold stripTrailingSlash
  rw [h]
  rfl

/-- `stripTrailingSlash` leaves a string not ending in `/` unchanged. -/
theorem stripTrailingSlash_of_no_slash (s : String) (h : s.data.getLast? ≠ some '/') :
    stripTrailingSlash s = s := by
  unfold stripTrailingSlash
  split
  · simp_all
  · rfl

/-- Stripping the trailing slash of a string of length at least two cannot
empty it. -/
theorem stripTrailingSlash_ne_empty (u : String) (hlen : 2 ≤ u.data.length) :
    stripTrailingSlash u ≠ "" := by
  by_cases hsl : u.data.getLast? = some '/'
  · rw [stripTrailingSlash_of_slash u hsl]
    intro hc
    have hd := congrArg String.data hc
    have h0 : ("".data : List Char) = [] := rfl
    rw [h0] at hd
    have hl := congrArg List.length hd
    rw [List.length_dropLast] at hl
    have hnil : ([] : List Char).length = 0 := rfl
    omega
  · rw [stripTrailingSlash_of_no_slash u hsl]
    intro hc
    subst hc
    have h0 : ("".data : List Char).length = 0 := rfl
    omega

/-- Stripping a trailing slash keeps a proper prefix intact. -/
theorem strip_keeps_scheme (u p : String) (h : strStartsWith u p = true)
    (hup : u ≠ p) : strStartsWith (stripTrailingSlash u) p = true := by
  obtain ⟨t, ht⟩ := (listStartsWith_iff _ _).mp h
  have htne : t ≠ [] := by
    intro h0
    subst h0
    rw [List.append_nil] at ht
    apply hup
    cases u with
    | mk d =>
      cases p with
      | mk pd => exact congrArg String.mk ht
  by_cases hsl : u.data.getLast? = some '/'
  · rw [stripTrailingSlash_of_slash u hsl]
    unfold strStartsWith
    rw [listStartsWith_iff]
    refine ⟨t.dropLast, ?_⟩
    show u.data.dropLast = p.data ++ t.dropLast
    rw [ht]
    exact List.dropLast_append_of_ne_nil p.data htne
  · rw [stripTrailingSlash_of_no_slash u hsl]
    exact h

/-- An accepted raw configuration normalizes successfully, to the record the
source builds. -/
theorem normalizeConfig_ok (pc : PartialConfig) (u : String)
    (hb : pc.baseUrl = some u)
    (hpre : strStartsWith u "http://" = true ∨ strStartsWith u "https://" = true) :
    normalizeConfig pc = .ok
      { baseUrl := stripTrailingSlash u
        network := match pc.network with
                   | none => "mainnet-beta"
                   | some n => if n = "" then "mainnet-beta" else n
        timeout := some (effTimeout pc.timeout) } := by
  have hne : u ≠ "" := by
    rcases hpre with h | h
    · exact strStartsWith_ne_empty u "http://" (by decide) h
    · exact strStartsWith_ne_empty u "https://" (by decide) h
  unfold normalizeConfig
  rw [hb]
  dsimp only
  rw [if_neg hne, if_neg ?hcond]
  case hcond =>
    rcases hpre with h | h <;> simp [h]

/-- C2 (corrected).  Every raw configuration whose endpoint is present and
starts with `http://` or `https://` is accepted, and the normalized endpoint
is non-empty and has exactly one trailing slash removed (an endpoint ending in
two slashes keeps one, and an endpoint with no trailing slash is unchanged).
The claim's further invariant — that the normalized endpoint still begins
with `http://` or `https://` — holds whenever the endpoint is anything other
than the bare scheme strings `"http://"` / `"https://"`; for those two the
stripped result (`"http:/"`, `"https:/"`) loses the prefix, see the
counterexample. -/
theorem c2_endpoint_normalization_amended (pc : PartialConfig) (u : String)
    (hb : pc.baseUrl = some u)
    (hpre : strStartsWith u "http://" = true ∨ strStartsWith u "https://" = true) :
    ∃ cfg, normalizeConfig pc = .ok cfg ∧
      cfg.baseUrl ≠ "" ∧
      (∀ v, u = v ++ "/" → cfg.baseUrl = v) ∧
      (u.data.getLast? ≠ some '/' → cfg.baseUrl = u) ∧
      (u ≠ "http://" → u ≠ "https://" →
        (strStartsWith cfg.baseUrl "http://" = true ∨
          strStartsWith cfg.baseUrl "https://" = true)) := by
  refine ⟨_, normalizeConfig_ok pc u hb hpre, ?_, ?_, ?_, ?_⟩
  · apply stripTrailingSlash_ne_empty
    rcases hpre with h | h <;>
    · obtain ⟨t, ht⟩ := (listStartsWith_iff _ _).mp h
      have hlen := congrArg List.length ht
      rw [List.length_append] at hlen
      have h7 : ("http://".data : List Char).length = 7 := rfl
      have h8 : ("https://".data : List Char).length = 8 := rfl
      omega
  · intro v hv
    subst hv
    have hdata : (v ++ "/").data = v.data ++ ['/'] := by
      rw [String.data_append]
    have hsl : (v ++ "/").data.getLast? = some '/' := by
      rw [hdata]
      exact List.getLast?_concat v.data
    dsimp only
    rw [stripTrailingSlash_of_slash _ hsl, hdata, List.dropLast_concat]
  · intro hsl
    exact stripTrailingSlash_of_no_slash u hsl
  · intro h1 h2
    rcases hpre with h | h
    · exact Or.inl (strip_keeps_scheme u "http://" h h1)
    · exact Or.inr (strip_keeps_scheme u "https://" h h2)

/-- Witness for C2: the endpoint `"https://api.example.com/"` is accepted and
all amended conclusions hold for it. -/
theorem c2_endpoint_normalization_amended_witness :
    ∃ cfg, normalizeConfig ⟨some "https://api.example.com/", none, none⟩ = .ok cfg ∧
      cfg.baseUrl ≠ "" ∧
      (∀ v, "https://api.example.com/" = v ++ "/" → cfg.baseUrl = v) ∧
      ("https://api.example.com/".data.getLast? ≠ some '/' →
        cfg.baseUrl = "https://api.example.com/") ∧
      ("https://api.example.com/" ≠ "http://" → "https://api.example.com/" ≠ "https://" →
        (strStartsWith cfg.baseUrl "http://" = true ∨
          strStartsWith cfg.baseUrl "https://" = true)) :=
  c2_endpoint_normalization_amended _ _ rfl (Or.inr (by decide))

/-- Counterexample to C2 as stated: the endpoint `"http://"` is accepted (it
starts with `http://`) but its normalization `"http:/"` no longer begins with
`http://` or `https://`. -/
theorem c2_counterexample :
    normalizeConfig ⟨some "http://", none, none⟩ =
      .ok ⟨"http:/", "mainnet-beta", some 30000⟩ ∧
    strStartsWith "http://" "http://" = true ∧
    strStartsWith "http:/" "http://" = false ∧
    strStartsWith "http:/" "https://" = false := by
  refine ⟨?_, by decide, by decide, by decide⟩
  rfl

/-- C3 (corrected).  The Configuration Normalizer never rejects a timeout:
an accepted endpoint always yields a configuration; a `timeoutMs` of `0`
(falsy) is silently replaced by the default 30000, and a negative `timeoutMs`
is passed through unchanged — so the timeout race *can* receive a negative
deadline from a normalized configuration, contrary to the claim. -/
theorem c3_timeout_not_rejected_amended (pc : PartialConfig) (u : String)
    (hb : pc.baseUrl = some u)
    (hpre : strStartsWith u "http://" = true ∨ strStartsWith u "https://" = true) :
    ∃ cfg, normalizeConfig pc = .ok cfg ∧
      cfg.timeout = some (effTimeout pc.timeout) ∧
      (pc.timeout = some 0 → cfg.timeout = some 30000) ∧
      (∀ t, pc.timeout = some t → t ≠ 0 → cfg.timeout = some t) := by
  refine ⟨_, normalizeConfig_ok pc u hb hpre, rfl, ?_, ?_⟩
  · intro h0
    simp [h0, effTimeout]
  · intro t ht hne
    simp [ht, effTimeout, hne]

/-- Witness for C3: a configuration with `timeoutMs = -5` is accepted with the
`-5` passed through. -/
theorem c3_timeout_not_rejected_amended_witness :
    ∃ cfg, normalizeConfig ⟨some "https://a", none, some (-5)⟩ = .ok cfg ∧
      cfg.timeout = some (effTimeout (some (-5))) ∧
      ((some (-5) : Option Int) = some 0 → cfg.timeout = some 30000) ∧
      (∀ t, (some (-5) : Option Int) = some t → t ≠ 0 → cfg.timeout = some t) :=
  c3_timeout_not_rejected_amended _ _ rfl (Or.inr (by decide))

/-- Counterexample to C3 as stated: `timeoutMs = -5` is *not* rejected — the
normalizer resolves with the negative deadline intact. -/
theorem c3_counterexample :
    normalizeConfig ⟨some "https://a", none, some (-5)⟩ =
      .ok ⟨"https://a", "mainnet-beta", some (-5)⟩ ∧ (-5 : Int) < 0 :=
  ⟨rfl, by decide⟩

/-- A non-empty string has non-zero length. -/
theorem ne_empty_length_pos (s : String) (h : s ≠ "") : ¬s.length = 0 := by
  intro h0
  apply h
  cases s with
  | mk data =>
    simp [String.length] at h0
    simp [h0]

/-- C4 (corrected).  Whenever `getWalletBalance` resolves, the resolved value
carries a numeric `balance` and the literal unit `"SOL"` — but the code never
checks the sign, so the balance may be negative: the claim's `≥ 0` bound is
false, see the counterexample. -/
theorem c4_balance_shape_amended (address : String) (config : PipelinkConfig)
    (tr : Transport) (v : JsValue)
    (h : (getWalletBalance address config tr).1 = .ok v) :
    (∃ q, v.getProp "balance" = .num q) ∧ v.getProp "unit" = .str "SOL" := by
  obtain ⟨-, -, h3, h4⟩ := getWalletBalance_ok_shape address config tr v h
  exact ⟨h3, h4⟩

/-- Witness for C4: a resolving call whose response carries balance 3. -/
theorem c4_balance_shape_amended_witness :
    (∃ q, (JsValue.obj [("balance", .num 3), ("unit", .str "SOL")]).getProp "balance"
        = .num q) ∧
    (JsValue.obj [("balance", .num 3), ("unit", .str "SOL")]).getProp "unit"
        = .str "SOL" :=
  c4_balance_shape_amended "a" ⟨"https://x", "mainnet-beta", some 100⟩
    (fun _ _ => .resolve ⟨true, 200, "OK", some "application/json",
      .ok (.obj [("balance", .num 3), ("unit", .str "SOL")]), .ok ""⟩)
    (.obj [("balance", .num 3), ("unit", .str "SOL")]) rfl

/-- Counterexample to C4 as stated: a backend response with `balance: -1` and
`unit: "SOL"` passes validation and `getWalletBalance` resolves with the
negative balance. -/
theorem c4_counterexample :
    (getWalletBalance "addr" ⟨"https://api.example.com", "mainnet-beta", some 5000⟩
      (fun _ _ => .resolve ⟨true, 200, "OK", some "application/json",
        .ok (.obj [("balance", .num (-1)), ("unit", .str "SOL")]), .ok ""⟩)).1 =
      .ok (.obj [("balance", .num (-1)), ("unit", .str "SOL")]) ∧
    (-1 : ℚ) < 0 :=
  ⟨rfl, by norm_num⟩

/-- C5 (confirmed).  Over a transport resolving with an ok JSON response whose
parsed value is `v`: if `v` is an object with a numeric `balance` and
`unit === "SOL"`, `getWalletBalance` resolves with exactly `v`; if `balance`
is not numeric or `unit` differs from `"SOL"`, it rejects with a
`ValidationError`. -/
theorem c5_balance_response_validation (address : String) (config : PipelinkConfig)
    (tr : Transport) (r : JsResponse) (v : JsValue)
    (haddr : address ≠ "") (hbase : config.baseUrl ≠ "")
    (htr : ∀ url init, tr url init = .resolve r)
    (hok : r.ok = true) (hct : r.contentType = some "application/json")
    (hjson : r.json = .ok v) :
    (v.truthy = true → v.typeOf = "object" → (∃ q, v.getProp "balance" = .num q) →
      v.getProp "unit" = .str "SOL" → (getWalletBalance address config tr).1 = .ok v) ∧
    (((∀ q, v.getProp "balance" ≠ .num q) ∨ v.getProp "unit" ≠ .str "SOL") →
      ∃ msg, (getWalletBalance address config tr).1 = .error (.sdk (.validation msg))) := by
  have hinc : strIncludes "application/json" "application/json" = true := by decide
  have hget : ∀ url timeout, get url timeout tr = .ok v := by
    intro url timeout
    show httpRequest url "GET" [] none timeout tr = .ok v
    unfold httpRequest
    simp only [htr]
    simp [withTimeout, hct, hinc, hjson, hok]
  constructor
  · intro ht1 ht2 hbal hunit
    obtain ⟨q, hq⟩ := hbal
    unfold getWalletBalance
    rw [if_neg haddr, if_neg (ne_empty_length_pos address haddr), if_neg hbase]
    dsimp only
    rw [hget]
    dsimp only
    rw [if_neg (by simp [ht1, ht2]), if_neg (by simp [hq, JsValue.typeOf]),
      if_neg (by simp [hunit, jsStrictEqStr])]
  · intro hbad
    unfold getWalletBalance
    rw [if_neg haddr, if_neg (ne_empty_length_pos address haddr), if_neg hbase]
    dsimp only
    rw [hget]
    dsimp only
    by_cases h1 : (!v.truthy || v.typeOf != "object") = true
    · rw [if_pos h1]
      exact ⟨_, rfl⟩
    · rw [if_neg h1]
      by_cases h2 : ((v.getProp "balance").typeOf != "number") = true
      · rw [if_pos h2]
        exact ⟨_, rfl⟩
      · rw [if_neg h2]
        rcases hbad with hb | hu
        · exfalso
          simp only [bne_iff_ne, ne_eq, not_not] at h2
          obtain ⟨q, hq⟩ := (typeOf_number_iff _).mp h2
          exact hb q hq
        · have h3 : jsStrictEqStr (v.getProp "unit") "SOL" = false := by
            revert hu
            cases hcc : jsStrictEqStr (v.getProp "unit") "SOL"
            · intro _
              rfl
            · intro hu
              exact absurd ((jsStrictEqStr_iff _ _).mp hcc) hu
          rw [if_pos (by simp [h3])]
          exact ⟨_, rfl⟩

/-- Witness for C5: the spec's example — a transport returning
`{balance: 10.5, unit: "SOL"}` at status 200 resolves with that object. -/
theorem c5_balance_response_validation_witness :
    (getWalletBalance "So11112" ⟨"https://api.example.com", "mainnet-beta", some 5000⟩
      (fun _ _ => .resolve ⟨true, 200, "OK", some "application/json",
        .ok (.obj [("balance", .num (21 / 2)), ("unit", .str "SOL")]), .ok ""⟩)).1 =
      .ok (.obj [("balance", .num (21 / 2)), ("unit", .str "SOL")]) :=
  (c5_balance_response_validation "So11112"
      ⟨"https://api.example.com", "mainnet-beta", some 5000⟩
      (fun _ _ => .resolve ⟨true, 200, "OK", some "application/json",
        .ok (.obj [("balance", .num (21 / 2)), ("unit", .str "SOL")]), .ok ""⟩)
      ⟨true, 200, "OK", some "application/json",
        .ok (.obj [("balance", .num (21 / 2)), ("unit", .str "SOL")]), .ok ""⟩
      (.obj [("balance", .num (21 / 2)), ("unit", .str "SOL")])
      (by decide) (by decide) (fun _ _ => rfl) rfl rfl rfl).1
    rfl rfl ⟨21 / 2, rfl⟩ rfl

/-- C6 (confirmed).  For any non-empty string `m` and any adapter behaviour,
signing `m` as a string and signing its UTF-8 byte encoding produce the same
outcome altogether — in particular the same `message` field — and whenever the
string call resolves, that field is the original text `m` (the byte call goes
through `TextDecoder`, and UTF-8 decoding inverts the encoding). -/
theorem c6_sign_string_eq_bytes (m : String) (hm : m ≠ "")
    (walletAdapter : Option WalletAdapter) :
    signMessage walletAdapter (.str m) =
      signMessage walletAdapter (.bytes (textEncode m)) ∧
    (∀ r, signMessage walletAdapter (.str m) = .ok r → r.message = m) := by
  constructor
  · simp only [signMessage, msgBytes, textDecode_textEncode]
  · intro r h
    exact (signMessage_ok_shape walletAdapter (.str m) r h).2.2.1 m rfl

/-- Witness for C6: signing `"hi"` as a string and as UTF-8 bytes agree for a
concrete signer. -/
theorem c6_sign_string_eq_bytes_witness :
    signMessage (some ⟨some (fun _ => .ok (some [1])), some "pk"⟩) (.str "hi") =
      signMessage (some ⟨some (fun _ => .ok (some [1])), some "pk"⟩)
        (.bytes (textEncode "hi")) :=
  (c6_sign_string_eq_bytes "hi" (by decide)
    (some ⟨some (fun _ => .ok (some [1])), some "pk"⟩)).1

/-- C7 (confirmed).  Every rejection of `signMessage` is a `ValidationError`
(so never Network, Timeout or HttpStatus); a signer rejection that is not
already a `ValidationError` is wrapped as
`ValidationError("Failed to sign message: <cause>")`; and a signer resolving
with an empty signature yields the `ValidationError` about an invalid
signature. -/
theorem c7_sign_failures_validation (walletAdapter : Option WalletAdapter)
    (message : JsMessage) :
    (∀ e, signMessage walletAdapter message = .error e →
      ∃ m, e = .sdk (.validation m)) ∧
    (∀ wa signFn pk e, walletAdapter = some wa → wa.signMessage = some signFn →
      wa.publicKey = some pk → ¬(msgBytes message).length = 0 →
      signFn (msgBytes message) = .error e → (∀ m, e ≠ .sdk (.validation m)) →
      signMessage walletAdapter message =
        .error (.sdk (.validation
          ("Failed to sign message: " ++ e.errMessageOrUnknown)))) ∧
    (∀ wa signFn pk, walletAdapter = some wa → wa.signMessage = some signFn →
      wa.publicKey = some pk → ¬(msgBytes message).length = 0 →
      signFn (msgBytes message) = .ok (some []) →
      signMessage walletAdapter message =
        .error (.sdk (.validation "Wallet returned invalid signature"))) := by
  refine ⟨?_, ?_, ?_⟩
  · exact fun e h => signMessage_errors_validation walletAdapter message e h
  · intro wa signFn pk e hwa hsf hpk hlen hsig hnv
    subst hwa
    unfold signMessage
    dsimp only
    rw [hsf]
    dsimp only
    rw [hpk]
    dsimp only
    rw [if_neg hlen, hsig]
    dsimp only
    exact signCatch_wraps e hnv
  · intro wa signFn pk hwa hsf hpk hlen hsig
    subst hwa
    unfold signMessage
    dsimp only
    rw [hsf]
    dsimp only
    rw [hpk]
    dsimp only
    rw [if_neg hlen, hsig]
    rfl

/-- Witness for C7: a signer rejecting with a generic `Error("boom")` makes
`signMessage` reject with the wrapped `ValidationError`. -/
theorem c7_sign_failures_validation_witness :
    signMessage (some ⟨some (fun _ => .error (.plain "boom")), some "pk"⟩) (.str "hi") =
      .error (.sdk (.validation "Failed to sign message: boom")) :=
  (c7_sign_failures_validation
      (some ⟨some (fun _ => .error (.plain "boom")), some "pk"⟩) (.str "hi")).2.1
    ⟨some (fun _ => .error (.plain "boom")), some "pk"⟩
    (fun _ => .error (.plain "boom")) "pk" (.plain "boom")
    rfl rfl rfl (by decide) rfl (fun _ h => nomatch h)

/-- C8 (corrected).  In the request building of `httpRequest`, the descriptor
carries no `body` field when no body value was supplied, and carries the JSON
serialization when a *truthy* body value was supplied; but — because the guard
is the truthiness check `if (body)` — a supplied body value that is falsy
(`""`, `0`, `false`, `null`) is silently dropped and the descriptor has no
body field, so the claimed "if and only if a body value was supplied" fails,
see the counterexample. -/
theorem c8_body_serialization_amended (method : String)
    (headers : List (String × String)) (body : Option JsValue) :
    (body = none → (mkRequestInit method headers body).body = none) ∧
    (∀ b, body = some b → b.truthy = true →
      (mkRequestInit method headers body).body = some (jsonStringify b)) ∧
    (∀ b, body = some b → b.truthy = false →
      (mkRequestInit method headers body).body = none) := by
  refine ⟨?_, ?_, ?_⟩
  · intro h
    subst h
    rfl
  · intro b hb ht
    subst hb
    simp [mkRequestInit, ht]
  · intro b hb ht
    subst hb
    simp [mkRequestInit, ht]

/-- Witness for C8: a supplied truthy object body is serialized and attached. -/
theorem c8_body_serialization_amended_witness :
    (mkRequestInit "POST" [] (some (.obj [("name", .str "x")]))).body =
      some (jsonStringify (.obj [("name", .str "x")])) :=
  (c8_body_serialization_amended "POST" [] (some (.obj [("name", .str "x")]))).2.1
    (.obj [("name", .str "x")]) rfl rfl

/-- Counterexample to C8 as stated: the empty string is a supplied body value
with JSON serialization `"\"\""`, yet the built descriptor has no body field
at all. -/
theorem c8_counterexample :
    (mkRequestInit "POST" [] (some (.str ""))).body = none ∧
    jsonStringify (.str "") = "\"\"" :=
  ⟨rfl, rfl⟩

/-- C9 (confirmed).  `createPipeline` with any input whose `name` property is
not a non-empty string — in particular `{name: ""}` — rejects with a
`ValidationError` and invokes the injected transport zero times. -/
theorem c9_create_empty_name (pipelineConfig : JsValue) (config : PipelinkConfig)
    (tr : Transport)
    (hname : ∀ s, pipelineConfig.getProp "name" = .str s → s = "") :
    (∃ msg, (createPipeline pipelineConfig config tr).1 =
      .error (.sdk (.validation msg))) ∧
    (createPipeline pipelineConfig config tr).2 = 0 := by
  unfold createPipeline
  split
  · exact ⟨⟨_, rfl⟩, rfl⟩
  split
  · exact ⟨⟨_, rfl⟩, rfl⟩
  split
  · exact ⟨⟨_, rfl⟩, rfl⟩
  split
  · exact ⟨⟨_, rfl⟩, rfl⟩
  case _ h1 h2 h3 h4 =>
    exfalso
    simp only [Bool.or_eq_true, not_or, Bool.not_eq_true', Bool.not_eq_false,
      bne_iff_ne, ne_eq, not_not] at h2
    obtain ⟨s, hs⟩ := (typeOf_string_iff _).mp h2.2
    have hse : s = "" := hname s hs
    have := h2.1
    rw [hs, hse] at this
    exact absurd this (by simp [JsValue.truthy])

/-- Witness for C9: the input `{name: ""}` fails validation with zero
transport invocations. -/
theorem c9_create_empty_name_witness :
    (∃ msg, (createPipeline (.obj [("name", .str "")])
      ⟨"https://a", "mainnet-beta", some 100⟩ (fun _ _ => .never)).1 =
        .error (.sdk (.validation msg))) ∧
    (createPipeline (.obj [("name", .str "")])
      ⟨"https://a", "mainnet-beta", some 100⟩ (fun _ _ => .never)).2 = 0 :=
  c9_create_empty_name (.obj [("name", .str "")]) ⟨"https://a", "mainnet-beta", some 100⟩
    (fun _ _ => .never) (fun s h => (JsValue.str.inj h).symm)

/-- C10 (confirmed).  Each network operation called directly with a
configuration whose `baseUrl` is empty (the falsy value an absent `baseUrl`
also produces) rejects with a `ValidationError` and never invokes the
injected transport function. -/
theorem c10_empty_baseUrl_validation (address : String) (payload : AuthPayload)
    (pipelineConfig : JsValue) (config : PipelinkConfig) (tr : Transport)
    (hb : config.baseUrl = "") :
    ((∃ m, (getWalletBalance address config tr).1 = .error (.sdk (.validation m))) ∧
      (getWalletBalance address config tr).2 = 0) ∧
    ((∃ m, (verifySignature payload config tr).1 = .error (.sdk (.validation m))) ∧
      (verifySignature payload config tr).2 = 0) ∧
    ((∃ m, (createPipeline pipelineConfig config tr).1 = .error (.sdk (.validation m))) ∧
      (createPipeline pipelineConfig config tr).2 = 0) := by
  refine ⟨?_, ?_, ?_⟩
  · unfold getWalletBalance
    rw [hb]
    by_cases h1 : address = ""
    · rw [if_pos h1]
      exact ⟨⟨_, rfl⟩, rfl⟩
    · rw [if_neg h1]
      by_cases h2 : address.length = 0
      · rw [if_pos h2]
        exact ⟨⟨_, rfl⟩, rfl⟩
      · rw [if_neg h2, if_pos rfl]
        exact ⟨⟨_, rfl⟩, rfl⟩
  · unfold verifySignature
    rw [hb]
    by_cases h1 : payload.wallet = ""
    · rw [if_pos h1]
      exact ⟨⟨_, rfl⟩, rfl⟩
    · rw [if_neg h1]
      by_cases h2 : payload.message = ""
      · rw [if_pos h2]
        exact ⟨⟨_, rfl⟩, rfl⟩
      · rw [if_neg h2]
        by_cases h3 : payload.signature.length = 0
        · rw [if_pos h3]
          exact ⟨⟨_, rfl⟩, rfl⟩
        · rw [if_neg h3, if_pos rfl]
          exact ⟨⟨_, rfl⟩, rfl⟩
  · unfold createPipeline
    rw [hb]
    by_cases h1 : (!pipelineConfig.truthy || pipelineConfig.typeOf != "object") = true
    · rw [if_pos h1]
      exact ⟨⟨_, rfl⟩, rfl⟩
    · rw [if_neg h1]
      by_cases h2 : (!(pipelineConfig.getProp "name").truthy ||
          (pipelineConfig.getProp "name").typeOf != "string") = true
      · rw [if_pos h2]
        exact ⟨⟨_, rfl⟩, rfl⟩
      · rw [if_neg h2]
        by_cases h3 : jsStrLength (pipelineConfig.getProp "name") = 0
        · rw [if_pos h3]
          exact ⟨⟨_, rfl⟩, rfl⟩
        · rw [if_neg h3, if_pos rfl]
          exact ⟨⟨_, rfl⟩, rfl⟩

/-- Witness for C10: the three operations with `baseUrl = ""` and a transport
that would never settle all fail validation without any transport call. -/
theorem c10_empty_baseUrl_validation_witness :
    ((∃ m, (getWalletBalance "addr" ⟨"", "mainnet-beta", some 100⟩
        (fun _ _ => .never)).1 = .error (.sdk (.validation m))) ∧
      (getWalletBalance "addr" ⟨"", "mainnet-beta", some 100⟩
        (fun _ _ => .never)).2 = 0) ∧
    ((∃ m, (verifySignature ⟨"w", "m", [1]⟩ ⟨"", "mainnet-beta", some 100⟩
        (fun _ _ => .never)).1 = .error (.sdk (.validation m))) ∧
      (verifySignature ⟨"w", "m", [1]⟩ ⟨"", "mainnet-beta", some 100⟩
        (fun _ _ => .never)).2 = 0) ∧
    ((∃ m, (createPipeline (.obj [("name", .str "x")]) ⟨"", "mainnet-beta", some 100⟩
        (fun _ _ => .never)).1 = .error (.sdk (.validation m))) ∧
      (createPipeline (.obj [("name", .str "x")]) ⟨"", "mainnet-beta", some 100⟩
        (fun _ _ => .never)).2 = 0) :=
  c10_empty_baseUrl_validation "addr" ⟨"w", "m", [1]⟩ (.obj [("name", .str "x")])
    ⟨"", "mainnet-beta", some 100⟩ (fun _ _ => .never) rfl
